import Mathlib

/-!
Shallow embedding of the it_equipment model-training core
(src/app_core.py, src/models.py, src/preprocessing.py, src/evaluation.py,
src/data_cleaner.py) and proofs about the frozen specification claims.

Python floats are modelled as exact rationals (`Rat`), with NaN as a
separate `Cell` constructor (pandas missing marker).  Exceptions are
modelled with `Except PyErr`; the distinct Python exception classes the
code can raise become constructors of `PyErr`.
-/

namespace ItEquipment

/-- Python exception classes raised by the code under analysis. -/
inductive PyErr where
  | valueError (msg : String)
  | fileNotFoundError (msg : String)
  | keyError (msg : String)
  | typeError (msg : String)
  deriving DecidableEq, Repr

/-- One pandas cell: Python int, float (as exact rational), string,
NaN (missing marker), or an infinity. -/
inductive Cell where
  | int (n : Int)
  | flt (q : Rat)
  | str (s : String)
  | nan
  | inf
  | ninf
  deriving DecidableEq, Repr

instance : BEq Cell := ⟨fun a b => decide (a = b)⟩

instance : LawfulBEq Cell where
  eq_of_beq h := of_decide_eq_true h
  rfl := by intro a; simp [BEq.beq]

/-- Python str() of a cell, as pandas astype(str) renders it; float repr is
modelled for integral values (12.0 renders as "12.0"). -/
def pyStr : Cell → String
  | .int n => toString n
  | .flt q => if q.den = 1 then toString q.num ++ ".0" else toString q
  | .str s => s
  | .nan => "nan"
  | .inf => "inf"
  | .ninf => "-inf"

/-- A dataframe row: association list from column name to cell. -/
abbrev Row := List (String × Cell)

/-- A pandas DataFrame: ordered column names plus rows. -/
structure DataFrame where
  cols : List String
  rows : List Row
  deriving DecidableEq, Repr

/-- Cell of a row at a column (pandas lookup; missing key modelled as NaN,
though the functions below are only used on present columns). -/
def getCell (r : Row) (c : String) : Cell :=
  (r.lookup c).getD Cell.nan

instance {ε α : Type} [DecidableEq ε] [DecidableEq α] : DecidableEq (Except ε α) := by
  intro a b
  cases a <;> cases b
  case error.error e1 e2 => exact decidable_of_iff (e1 = e2) (by simp)
  case ok.ok a1 a2 => exact decidable_of_iff (a1 = a2) (by simp)
  all_goals exact isFalse (by intro h; cases h)

/-!  ## src/models.py — classifier configurations

Each builder returns a fresh hyperparameterized classifier instance;
the embedding records the constructor arguments that the source passes
explicitly (remaining sklearn defaults are untouched).  -/

/-- A scikit-learn classifier configuration, one constructor per family
used by the Model Factory (src/models.py). -/
inductive Classifier where
  | logisticRegression (max_iter : Nat) (n_jobs : Int)
  | kNeighborsClassifier (n_neighbors : Nat) (weights : String)
  | randomForestClassifier (n_estimators : Nat) (max_depth : Option Nat)
      (random_state : Nat) (n_jobs : Int)
  | gradientBoostingClassifier (random_state : Nat)
  | extraTreesClassifier (n_estimators : Nat) (random_state : Nat) (n_jobs : Int)
  | mlpClassifier (hidden_layer_sizes : List Nat) (activation : String)
      (max_iter : Nat) (random_state : Nat)
  deriving DecidableEq, Repr

/-- src/models.py build_logistic_regression. -/
def build_logistic_regression : Classifier :=
  .logisticRegression 200 (-1)

/-- src/models.py build_knn (default n_neighbors=5). -/
def build_knn (n_neighbors : Nat := 5) : Classifier :=
  .kNeighborsClassifier n_neighbors "distance"

/-- src/models.py build_random_forest (defaults n_estimators=200, max_depth=None). -/
def build_random_forest (n_estimators : Nat := 200) (max_depth : Option Nat := none) :
    Classifier :=
  .randomForestClassifier n_estimators max_depth 42 (-1)

/-- src/models.py build_gradient_boosting. -/
def build_gradient_boosting : Classifier :=
  .gradientBoostingClassifier 42

/-- src/models.py build_extra_trees. -/
def build_extra_trees : Classifier :=
  .extraTreesClassifier 250 42 (-1)

/-- src/models.py build_mlp_sklearn. -/
def build_mlp_sklearn : Classifier :=
  .mlpClassifier [64, 32] "relu" 200 42

/-- src/app_core.py build_model_by_name: the Model Factory if-chain;
any unrecognized name raises ValueError naming the model. -/
def build_model_by_name (name : String) : Except PyErr Classifier :=
  if name = "LogisticRegression" then .ok build_logistic_regression
  else if name = "KNN" then .ok build_knn
  else if name = "RandomForest" then .ok build_random_forest
  else if name = "GradientBoosting" then .ok build_gradient_boosting
  else if name = "ExtraTrees" then .ok build_extra_trees
  else if name = "MLPClassifier" then .ok build_mlp_sklearn
  else .error (.valueError ("Неизвестная модель: " ++ name))

/-!  ## src/evaluation.py — metric computations

sklearn's binary metrics with pos_label=1 and zero_division=0, over exact
rationals.  The metrics bundle is the Python dict, embedded as an ordered
association list (insertion order preserved, as in a dict).  -/

/-- True positives of a binary prediction (pos_label = 1). -/
def truePos (y_true y_pred : List Int) : Nat :=
  ((y_true.zip y_pred).filter (fun a => a.1 == 1 && a.2 == 1)).length

/-- False positives. -/
def falsePos (y_true y_pred : List Int) : Nat :=
  ((y_true.zip y_pred).filter (fun a => a.1 != 1 && a.2 == 1)).length

/-- False negatives. -/
def falseNeg (y_true y_pred : List Int) : Nat :=
  ((y_true.zip y_pred).filter (fun a => a.1 == 1 && a.2 != 1)).length

/-- sklearn accuracy_score: fraction of positions where prediction equals truth. -/
def accuracy_score (y_true y_pred : List Int) : Rat :=
  (((y_true.zip y_pred).filter (fun a => a.1 == a.2)).length : Rat) / (y_true.length : Rat)

/-- sklearn precision_score with zero_division=0. -/
def precision_score (y_true y_pred : List Int) : Rat :=
  let tp := truePos y_true y_pred
  let fp := falsePos y_true y_pred
  if tp + fp = 0 then 0 else (tp : Rat) / ((tp + fp : Nat) : Rat)

/-- sklearn recall_score with zero_division=0. -/
def recall_score (y_true y_pred : List Int) : Rat :=
  let tp := truePos y_true y_pred
  let fn := falseNeg y_true y_pred
  if tp + fn = 0 then 0 else (tp : Rat) / ((tp + fn : Nat) : Rat)

/-- sklearn f1_score with zero_division=0 (2tp / (2tp + fp + fn)). -/
def f1_score (y_true y_pred : List Int) : Rat :=
  let tp := truePos y_true y_pred
  let fp := falsePos y_true y_pred
  let fn := falseNeg y_true y_pred
  if 2 * tp + fp + fn = 0 then 0 else ((2 * tp : Nat) : Rat) / ((2 * tp + fp + fn : Nat) : Rat)

/-- sklearn roc_auc_score on binary labels: probability that a positive
example is scored above a negative one (ties count one half); raises
ValueError — modelled as `none` — when only one class is present. -/
def roc_auc_score (y_true : List Int) (y_score : List Rat) : Option Rat :=
  let pairs := y_true.zip y_score
  let pos := (pairs.filter (fun a => a.1 == 1)).map (fun a => a.2)
  let neg := (pairs.filter (fun a => a.1 != 1)).map (fun a => a.2)
  if pos.isEmpty || neg.isEmpty then none
  else
    let s := (pos.map (fun p =>
      (neg.map (fun n => if n < p then (1 : Rat) else if p = n then 1/2 else 0)).sum)).sum
    some (s / ((pos.length * neg.length : Nat) : Rat))

/-- The metrics bundle: Python dict from metric name to float-or-None. -/
abbrev Metrics := List (String × Option Rat)

/-- src/evaluation.py evaluate_binary_classifier: builds the metrics dict;
the roc_auc entry is added only when probability scores are supplied, and
its value is None when roc_auc_score raises (single-class y_true). -/
def evaluate_binary_classifier (y_true y_pred_labels : List Int)
    (y_pred_proba : Option (List Rat) := none) : Metrics :=
  let metrics : Metrics :=
    [("accuracy", some (accuracy_score y_true y_pred_labels)),
     ("precision", some (precision_score y_true y_pred_labels)),
     ("recall", some (recall_score y_true y_pred_labels)),
     ("f1", some (f1_score y_true y_pred_labels))]
  match y_pred_proba with
  | none => metrics
  | some p => metrics ++ [("roc_auc", roc_auc_score y_true p)]

/-!  ## src/preprocessing.py — preprocessing pipeline

The unfitted ColumnTransformer is its configuration (the two column
lists).  Fitting computes, per column, the SimpleImputer statistic, the
OneHotEncoder categories (categorical branch) and the StandardScaler
statistics (numeric branch); sklearn's floating square root is abstracted
as a function argument sqrtFn, guarded to scale 1 on zero variance as
StandardScaler does.  NaN cells of the numeric branch are Option.none
after _to_numeric.  -/

/-- src/preprocessing.py _to_numeric, per cell: pd.to_numeric with
errors="coerce" — numbers pass through, numeric text parses, anything
else becomes NaN (none).  Infinities are modelled as missing here; the
callers feed the pipeline inf-free frames (prepare_features_target has
already replaced infinities by NaN) and the no-missing theorem assumes
inf-freeness, since sklearn validation rejects infinite inputs. -/
def to_numeric : Cell → Option Rat
  | .int n => some (n : Rat)
  | .flt q => some q
  | .str s => (s.toInt?).map (fun n => (n : Rat))
  | .nan => none
  | .inf => none
  | .ninf => none

/-- Insertion sort of rationals (ascending), for the median. -/
def insertRat (x : Rat) : List Rat → List Rat
  | [] => [x]
  | y :: ys => if x ≤ y then x :: y :: ys else y :: insertRat x ys

/-- Ascending sort of rationals. -/
def sortRat (l : List Rat) : List Rat := l.foldr insertRat []

/-- numpy median: middle of the sorted list, or mean of the two middles. -/
def median (l : List Rat) : Rat :=
  let s := sortRat l
  let n := s.length
  if n = 0 then 0
  else if n % 2 = 1 then s.getD (n / 2) 0
  else (s.getD (n / 2 - 1) 0 + s.getD (n / 2) 0) / 2

/-- Arithmetic mean. -/
def listMean (l : List Rat) : Rat := l.sum / (l.length : Rat)

/-- Population variance (ddof = 0), as StandardScaler uses. -/
def listVar (l : List Rat) : Rat :=
  listMean (l.map (fun x => (x - listMean l) ^ 2))

/-- Occurrences of a cell value in a column. -/
def countCell (l : List Cell) (v : Cell) : Nat := (l.filter (· == v)).length

/-- Lexicographic strict order on character lists by character code. -/
def strLtb : List Char → List Char → Bool
  | [], [] => false
  | [], _ :: _ => true
  | _ :: _, [] => false
  | a :: as, b :: bs =>
    if a.toNat < b.toNat then true
    else if b.toNat < a.toNat then false
    else strLtb as bs

/-- Strict order on cells by rendered value (np.unique order). -/
def cellLt (v w : Cell) : Bool := strLtb (pyStr v).data (pyStr w).data

/-- SimpleImputer most_frequent statistic: the value of maximal count;
ties broken towards the smaller rendered value (np.unique order). -/
def mostFrequent (l : List Cell) : Cell :=
  l.foldl
    (fun best v =>
      if countCell l v > countCell l best ∨
          (countCell l v = countCell l best ∧ cellLt v best) then v
      else best)
    (l.headD .nan)

/-- Insertion sort of cells by rendered value (np.unique order). -/
def insertCell (x : Cell) : List Cell → List Cell
  | [] => [x]
  | y :: ys => if !cellLt y x then x :: y :: ys else y :: insertCell x ys

/-- OneHotEncoder fitted categories: sorted distinct observed values. -/
def uniqueSorted (l : List Cell) : List Cell :=
  l.dedup.foldr insertCell []

/-- An unfitted preprocessing ColumnTransformer: its configuration. -/
structure PreSpec where
  categorical_cols : List String
  numeric_cols : List String
  deriving DecidableEq, Repr

/-- src/preprocessing.py build_preprocessing_pipeline: records the column
lists; the transformer is stateless until fit. -/
def build_preprocessing_pipeline (categorical_cols numeric_cols : List String) : PreSpec :=
  ⟨categorical_cols, numeric_cols⟩

/-- Fitted state of one categorical column: imputer statistic and
OneHotEncoder categories. -/
structure FittedCat where
  stat : Cell
  categories : List Cell
  deriving DecidableEq, Repr

/-- Fitted state of one numeric column: imputer median, scaler mean and
scale. -/
structure FittedNum where
  stat : Rat
  mean : Rat
  scale : Rat
  deriving DecidableEq, Repr

/-- Fitted ColumnTransformer: per-column fitted state; `none` marks a
column dropped at fit time because every value was missing (sklearn's
SimpleImputer removes all-missing columns). -/
structure FittedPre where
  catFits : List (String × Option FittedCat)
  numFits : List (String × Option FittedNum)
  deriving Repr

/-- Column extraction from a row list. -/
def colOf (x : List Row) (c : String) : List Cell := x.map (fun r => getCell r c)

/-- Fit the categorical branch on one column: most-frequent imputation,
then OneHotEncoder categories from the imputed column. -/
def fitCatCol (col : List Cell) : Option FittedCat :=
  let present := col.filter (fun v => v != Cell.nan)
  if present.isEmpty then none
  else
    let stat := mostFrequent present
    let imputed := col.map (fun v => if v == Cell.nan then stat else v)
    some ⟨stat, uniqueSorted imputed⟩

/-- Fit the numeric branch on one column: _to_numeric, median imputation,
StandardScaler statistics (scale 1 when the variance is zero). -/
def fitNumCol (sqrtFn : Rat → Rat) (col : List Cell) : Option FittedNum :=
  let vals := col.map to_numeric
  let present := vals.filterMap id
  if present.isEmpty then none
  else
    let med := median present
    let imputed := vals.map (fun v => v.getD med)
    let vr := listVar imputed
    some ⟨med, listMean imputed, if vr = 0 then 1 else sqrtFn vr⟩

/-- Fit the whole ColumnTransformer on a frame. -/
def fitPre (sqrtFn : Rat → Rat) (spec : PreSpec) (x : List Row) : FittedPre :=
  ⟨spec.categorical_cols.map (fun c => (c, fitCatCol (colOf x c))),
   spec.numeric_cols.map (fun c => (c, fitNumCol sqrtFn (colOf x c)))⟩

/-- Transform one categorical cell: impute, then one-hot encode against
the fitted categories (handle_unknown="ignore": an unseen value hits no
category and yields the all-zero indicator block). -/
def transformCat (fc : FittedCat) (v : Cell) : List (Option Rat) :=
  let v2 := if v == Cell.nan then fc.stat else v
  fc.categories.map (fun c => if c == v2 then some 1 else some 0)

/-- Transform one numeric cell: _to_numeric, impute the median, scale. -/
def transformNum (fn : FittedNum) (v : Cell) : Option Rat :=
  some (((to_numeric v).getD fn.stat - fn.mean) / fn.scale)

/-- Transform one row: categorical blocks then numeric cells, columns
outside both lists dropped (remainder="drop"). -/
def transformRow (fp : FittedPre) (r : Row) : List (Option Rat) :=
  (fp.catFits.map (fun cf =>
      match cf.2 with
      | none => []
      | some fc => transformCat fc (getCell r cf.1))).flatten
  ++ (fp.numFits.map (fun nf =>
      match nf.2 with
      | none => []
      | some fn => [transformNum fn (getCell r nf.1)])).flatten

/-- ColumnTransformer.fit_transform of the preprocessing pipeline. -/
def fit_transform (sqrtFn : Rat → Rat) (spec : PreSpec) (x : List Row) :
    List (List (Option Rat)) :=
  x.map (transformRow (fitPre sqrtFn spec x))

/-!  ## src/app_core.py — orchestration, persistence, inference

A fitted sklearn pipeline is opaque: a `Model` carries its predict
function and, when the classifier supports probability estimates, a
predict_proba function returning per-row class-probability pairs
(pipeline.predict_proba's two columns).  The library's training is an
external collaborator, abstracted as a `SklearnStack` whose fitPipeline
maps a pipeline specification, feature rows and labels to a fitted
`Model`.  The filesystem is an association list from path to stored
model (joblib artifacts). -/

/-- A fitted pipeline: opaque predict / optional predict_proba. -/
structure Model where
  predict : List Row → List Int
  predict_proba : Option (List Row → List (Rat × Rat))

/-- The external ML library: fitting a pipeline produces a fitted model. -/
structure SklearnStack where
  fitPipeline : PreSpec × Classifier → List Row → List Int → Model

/-- src/app_core.py build_pipeline: preprocessing stage plus the
classifier from the Model Factory (which can raise ValueError). -/
def build_pipeline (model_name : String)
    (categorical_cols numeric_cols : List String) :
    Except PyErr (PreSpec × Classifier) := do
  let preprocessor := build_preprocessing_pipeline categorical_cols numeric_cols
  let model ← build_model_by_name model_name
  pure (preprocessor, model)

/-- Traverse a list through Except, failing at the first error. -/
def mapExc (f : α → Except PyErr β) : List α → Except PyErr (List β)
  | [] => .ok []
  | a :: l =>
    match f a with
    | .error e => .error e
    | .ok b =>
      match mapExc f l with
      | .error e => .error e
      | .ok l2 => .ok (b :: l2)

/-- pandas column selection df[cols]: KeyError when a column is absent,
otherwise the rows restricted (and reordered) to the given columns. -/
def selectCols (df : DataFrame) (cols : List String) : Except PyErr (List Row) :=
  if cols.all (fun c => df.cols.contains c) then
    .ok (df.rows.map (fun r => cols.map (fun c => (c, getCell r c))))
  else .error (.keyError "columns not in index")

/-- Python int() of one cell, as Series.astype(int) applies it: floats
truncate toward zero, integer text parses, NaN and infinities raise. -/
def pyIntCast : Cell → Except PyErr Int
  | .int n => .ok n
  | .flt q => .ok (if q < 0 then -((-q).floor) else q.floor)
  | .str s =>
    match s.toInt? with
    | some n => .ok n
    | none => .error (.valueError ("invalid literal for int(): " ++ s))
  | .nan => .error (.valueError "Cannot convert non-finite values (NA or inf) to integer")
  | .inf => .error (.valueError "Cannot convert non-finite values (NA or inf) to integer")
  | .ninf => .error (.valueError "Cannot convert non-finite values (NA or inf) to integer")

/-- df[target].astype(int).values: KeyError when the column is absent,
then the direct int cast of every row's target cell — no row is dropped
and no filtering to binary values happens here. -/
def seriesAstypeInt (df : DataFrame) (c : String) : Except PyErr (List Int) :=
  if df.cols.contains c then mapExc (fun r => pyIntCast (getCell r c)) df.rows
  else .error (.keyError c)

/-- The predictions the orchestrator computes on the test partition:
labels straight from pipeline.predict, probabilities (positive-class
column of predict_proba) only when the model exposes them.  No
probability threshold is applied here. -/
def pipelinePredictions (model : Model) (x_test : List Row) :
    List Int × Option (List Rat) :=
  (model.predict x_test,
   match model.predict_proba with
   | some pf => some ((pf x_test).map (fun pr => pr.2))
   | none => none)

/-- src/app_core.py fit_model_and_evaluate (Train+Evaluate): select the
feature columns and cast the target of both partitions, build and fit
the pipeline on the train partition, predict on the test partition and
compute the metrics bundle against the cast test labels. -/
def fit_model_and_evaluate (stack : SklearnStack) (df_train df_test : DataFrame)
    (target_column : String) (categorical_cols numeric_cols : List String)
    (model_name : String) : Except PyErr (Model × Metrics) := do
  let x_train ← selectCols df_train (categorical_cols ++ numeric_cols)
  let y_train ← seriesAstypeInt df_train target_column
  let x_test ← selectCols df_test (categorical_cols ++ numeric_cols)
  let y_test ← seriesAstypeInt df_test target_column
  let pipe ← build_pipeline model_name categorical_cols numeric_cols
  let model := stack.fitPipeline pipe x_train y_train
  let preds := pipelinePredictions model x_test
  pure (model, evaluate_binary_classifier y_test preds.1 preds.2)

/-!  ### Persistence (joblib + os.makedirs) -/

/-- The filesystem of model artifacts: path to stored pipeline. -/
abbrev FS := List (String × Model)

/-- os.path.dirname for the relative paths the application uses:
everything before the last slash, empty for a bare filename. -/
def dirname (p : String) : String :=
  String.mk (((p.data.reverse.dropWhile (fun ch => ch != '/')).drop 1).reverse)

/-- os.makedirs(d, exist_ok=True) over the abstract filesystem:
creation always succeeds, except that Python's makedirs("") raises
FileNotFoundError. -/
def makedirs (d : String) : Except PyErr Unit :=
  if d = "" then .error (.fileNotFoundError "No such file or directory: ''")
  else .ok ()

/-- joblib.dump: write the artifact at the path, overwriting. -/
def joblib_dump (fs : FS) (path : String) (m : Model) : FS :=
  (path, m) :: fs.filter (fun e => e.1 != path)

/-- src/app_core.py fit_on_full_and_save (Train-Full+Persist): fit on the
whole frame, compute in-sample metrics, create the parent directories of
model_path and write the artifact.  Returns the fitted pipeline, the
metrics and the updated filesystem. -/
def fit_on_full_and_save (stack : SklearnStack) (fs : FS) (df : DataFrame)
    (target_column : String) (categorical_cols numeric_cols : List String)
    (model_name : String) (model_path : String) :
    Except PyErr ((Model × Metrics) × FS) := do
  let x ← selectCols df (categorical_cols ++ numeric_cols)
  let y ← seriesAstypeInt df target_column
  let pipe ← build_pipeline model_name categorical_cols numeric_cols
  let model := stack.fitPipeline pipe x y
  let preds := pipelinePredictions model x
  let metrics := evaluate_binary_classifier y preds.1 preds.2
  let _ ← makedirs (dirname model_path)
  pure ((model, metrics), joblib_dump fs model_path model)

/-- src/app_core.py load_model: FileNotFoundError naming the path when no
artifact exists there, otherwise the stored pipeline. -/
def load_model (fs : FS) (model_path : String) : Except PyErr Model :=
  match fs.lookup model_path with
  | none => .error (.fileNotFoundError ("Файл модели " ++ model_path ++ " не найден."))
  | some m => .ok m

/-- src/app_core.py predict_needs_upgrade: select the feature columns,
score each row (positive-class probability, or the predicted label cast
to float when the model has no predict_proba), and threshold the score
at 0.5 — a score of exactly 0.5 yields label 1. -/
def predict_needs_upgrade (model : Model) (df_inputs : DataFrame)
    (feature_cols : List String) : Except PyErr (List Int × List Rat) := do
  let x ← selectCols df_inputs feature_cols
  let proba :=
    match model.predict_proba with
    | some pf => (pf x).map (fun pr => pr.2)
    | none => (model.predict x).map (fun n => (n : Rat))
  let labels := proba.map (fun p => if 1/2 ≤ p then (1 : Int) else 0)
  pure (labels, proba)

/-!  ## src/preprocessing.py prepare_features_target -/

/-- pd.to_numeric(errors="coerce") per cell: numbers and infinities pass
through, integer text parses, other text or NaN becomes NaN. -/
def pdToNumericCell : Cell → Cell
  | .int n => .int n
  | .flt q => .flt q
  | .str s =>
    match s.toInt? with
    | some n => .int n
    | none => .nan
  | .nan => .nan
  | .inf => .inf
  | .ninf => .ninf

/-- df.replace([np.inf, -np.inf], np.nan) per cell. -/
def replaceInfCell : Cell → Cell
  | .inf => .nan
  | .ninf => .nan
  | c => c

/-- Numeric value of a cell, if it is a number. -/
def cellVal : Cell → Option Rat
  | .int n => some (n : Rat)
  | .flt q => some q
  | _ => none

/-- Series.isin([0, 1]) per cell. -/
def isinBinary (v : Cell) : Bool :=
  cellVal v == some 0 || cellVal v == some 1

/-- Apply a function to the cells of one column of a row. -/
def mapRowF (c : String) (f : Cell → Cell) (r : Row) : Row :=
  r.map (fun p => if p.1 = c then (p.1, f p.2) else p)

/-- astype(int) on a cell already known to be numeric (the caller filters
to numeric 0/1 first); non-numeric cells are left as they are. -/
def astypeIntCell : Cell → Cell
  | .int n => .int n
  | .flt q => .int q.floor
  | c => c

/-- Integer stored in a cell (the caller guarantees an int cell). -/
def cellInt : Cell → Int
  | .int n => n
  | _ => 0

/-- Metadata dict returned by prepare_features_target. -/
structure FeatureMeta where
  categorical_cols : List String
  numeric_cols : List String
  deriving DecidableEq, Repr

/-- src/preprocessing.py prepare_features_target: check the feature and
target columns exist, copy the frame, coerce the target column to
numeric, replace plus and minus infinity by NaN in the WHOLE frame, drop
rows with missing target, keep rows whose target is 0 or 1, cast the
target to int, and split into the feature frame X and label vector y. -/
def prepare_features_target (df : DataFrame) (target_column : String)
    (categorical_cols numeric_cols : List String) :
    Except PyErr (List Row × List Int × FeatureMeta) :=
  let missing := (categorical_cols ++ numeric_cols).filter (fun c => !(df.cols.contains c))
  if !missing.isEmpty then
    .error (.valueError ("В датасете отсутствуют необходимые столбцы: " ++ toString missing))
  else if !(df.cols.contains target_column) then
    .error (.valueError ("Целевой столбец " ++ target_column ++ " не найден."))
  else
    let rows1 := df.rows.map (mapRowF target_column pdToNumericCell)
    let rows2 := rows1.map (fun r => r.map (fun p => (p.1, replaceInfCell p.2)))
    let rows3 := rows2.filter (fun r => getCell r target_column != Cell.nan)
    let rows4 := rows3.filter (fun r => isinBinary (getCell r target_column))
    let rows5 := rows4.map (mapRowF target_column astypeIntCell)
    let x := rows5.map (fun r =>
      (categorical_cols ++ numeric_cols).map (fun c => (c, getCell r c)))
    let y := rows5.map (fun r => cellInt (getCell r target_column))
    .ok (x, y, ⟨categorical_cols, numeric_cols⟩)

/-!  ## src/data_cleaner.py clean_dataset -/

/-- Series.fillna with a scalar, per cell. -/
def fillnaCell (v fill : Cell) : Cell := if v == Cell.nan then fill else v

/-- Apply a fallible function to the cells of one column of a row. -/
def transformColCell (c : String) (f : Cell → Except PyErr Cell) (r : Row) :
    Except PyErr Row :=
  mapExc (fun p => if p.1 = c then do let v ← f p.2; pure (p.1, v) else pure p) r

/-- Map a fallible cell function over one column of a frame. -/
def mapColE (df : DataFrame) (c : String) (f : Cell → Except PyErr Cell) :
    Except PyErr DataFrame := do
  let rows ← mapExc (transformColCell c f) df.rows
  pure { df with rows := rows }

/-- Map a cell function over one column of a frame. -/
def mapCol (df : DataFrame) (c : String) (f : Cell → Cell) : DataFrame :=
  { df with rows := df.rows.map (mapRowF c f) }

/-- The .replace(age_map) step: the three category strings become ints. -/
def ageMapCell : Cell → Cell
  | .str "low" => .int 1
  | .str "medium" => .int 3
  | .str "high" => .int 5
  | c => c

/-- astype(float) per cell: numbers widen, integer text parses, other
text raises, NaN and infinities pass through. -/
def pyFloatCast : Cell → Except PyErr Cell
  | .int n => .ok (.flt (n : Rat))
  | .flt q => .ok (.flt q)
  | .str s =>
    match s.toInt? with
    | some n => .ok (.flt (n : Rat))
    | none => .error (.valueError ("could not convert string to float: " ++ s))
  | .nan => .ok .nan
  | .inf => .ok .inf
  | .ninf => .ok .ninf

/-- Series.median of the raw column (NaN skipped; a non-numeric value
makes pandas raise; an empty numeric column yields NaN). -/
def pdMedianCell (col : List Cell) : Except PyErr Cell :=
  if col.any (fun v => (cellVal v).isNone && v != Cell.nan) then
    .error (.typeError "could not compute median of non-numeric column")
  else
    let vals := col.filterMap cellVal
    if vals.isEmpty then .ok .nan else .ok (.flt (median vals))

/-- The five categorical columns normalized by clean_dataset. -/
def cleanCategoricalCols : List String :=
  ["user_department", "device_type", "priority", "os", "location"]

/-- The target block of clean_dataset: drop rows whose needs_upgrade is
missing, then cast the column to int. -/
def cleanTarget (df : DataFrame) : Except PyErr DataFrame :=
  if df.cols.contains "needs_upgrade" then
    mapColE
      { df with rows := df.rows.filter (fun r => getCell r "needs_upgrade" != Cell.nan) }
      "needs_upgrade" (fun v => do let n ← pyIntCast v; pure (.int n))
  else pure df

/-- The device-age block of clean_dataset: map the three category
strings to numbers, cast to float, and fill missing values with the
median of the pre-assignment column. -/
def cleanDeviceAge (df : DataFrame) : Except PyErr DataFrame :=
  if df.cols.contains "device_age_years" then do
    let med ← pdMedianCell (colOf df.rows "device_age_years")
    mapColE df "device_age_years" (fun v => do
      let v2 ← pyFloatCast (ageMapCell v)
      pure (fillnaCell v2 med))
  else pure df

/-- Python str.strip() on a character list: drop whitespace from both
ends. -/
def stripChars (l : List Char) : List Char :=
  ((l.dropWhile Char.isWhitespace).reverse.dropWhile Char.isWhitespace).reverse

/-- The tickets block of clean_dataset, per cell:
.astype(str).apply(lambda x: len(x.strip())) — the value is replaced by
the character length of its whitespace-stripped string rendering. -/
def ticketLenCell (v : Cell) : Cell := .int ((stripChars (pyStr v).data).length : Int)

/-- The tickets block of clean_dataset. -/
def cleanTickets (df : DataFrame) : DataFrame :=
  if df.cols.contains "tickets_last_6_months" then
    mapCol df "tickets_last_6_months" ticketLenCell
  else df

/-- The description block of clean_dataset: astype(str). -/
def cleanDescription (df : DataFrame) : DataFrame :=
  if df.cols.contains "problem_description" then
    mapCol df "problem_description" (fun v => .str (pyStr v))
  else df

/-- One categorical column of clean_dataset: astype(str) then
fillna("unknown") — the fillna is a no-op because astype(str) renders
missing values as the string nan. -/
def cleanCatCell (v : Cell) : Cell := fillnaCell (.str (pyStr v)) (.str "unknown")

/-- The categorical block of clean_dataset over its five columns. -/
def cleanCategoricals (df : DataFrame) : DataFrame :=
  cleanCategoricalCols.foldl
    (fun d col => if d.cols.contains col then mapCol d col cleanCatCell else d) df

/-- src/data_cleaner.py clean_dataset: drop rows with missing target and
cast the target to int; map/convert the device-age column and fill its
missing values with the pre-assignment column median; replace every
tickets_last_6_months value by the length of its whitespace-stripped
string rendering; render the description and categorical columns as
strings. -/
def clean_dataset (df : DataFrame) : Except PyErr DataFrame := do
  let df1 ← cleanTarget df
  let df2 ← cleanDeviceAge df1
  pure (cleanCategoricals (cleanDescription (cleanTickets df2)))

/-!  ## Supporting lemmas -/

/-- Unfolding lemma for association-list lookup on a cons. -/
theorem lookup_cons {β : Type} (a k : String) (b : β) (es : List (String × β)) :
    List.lookup a ((k, b) :: es) = if a == k then some b else List.lookup a es := by
  by_cases h : a == k <;> simp [List.lookup, h]

/-- A successful mapExc run relates inputs and outputs pointwise. -/
theorem mapExc_ok_forall2 {α β : Type} {f : α → Except PyErr β} :
    ∀ {l : List α} {l2 : List β}, mapExc f l = .ok l2 →
      List.Forall₂ (fun a b => f a = .ok b) l l2 := by
  intro l
  induction l with
  | nil =>
    intro l2 h
    simp only [mapExc] at h
    cases h
    constructor
  | cons a l ih =>
    intro l2 h
    simp only [mapExc] at h
    cases hfa : f a with
    | error e => rw [hfa] at h; simp at h
    | ok b =>
      rw [hfa] at h
      cases hml : mapExc f l with
      | error e => rw [hml] at h; simp at h
      | ok l3 =>
        rw [hml] at h
        simp only [Except.ok.injEq] at h
        cases h
        exact List.Forall₂.cons hfa (ih hml)

/-- Columns agree across row lists whose rows agree on the lookup. -/
theorem colOf_eq_of_forall2 {rows rows2 : List Row} {c : String}
    (h : List.Forall₂ (fun r r2 => r2.lookup c = r.lookup c) rows rows2) :
    colOf rows2 c = colOf rows c := by
  induction h with
  | nil => rfl
  | cons h12 _ ih =>
    simp only [colOf, List.map_cons] at *
    rw [ih]
    simp [getCell, h12]

/-- mapRowF keeps every column other than the mapped one. -/
theorem lookup_mapRowF_other {c c2 : String} (h : c2 ≠ c) (f : Cell → Cell) (r : Row) :
    (mapRowF c f r).lookup c2 = r.lookup c2 := by
  induction r with
  | nil => rfl
  | cons p r ih =>
    obtain ⟨k, v⟩ := p
    simp only [mapRowF, List.map_cons] at ih ⊢
    by_cases hp : k = c
    · subst hp
      have hne : (c2 == k) = false := beq_eq_false_iff_ne.mpr h
      simp only [eq_self_iff_true, if_true]
      rw [lookup_cons, lookup_cons]
      simpa [hne] using ih
    · simp only [if_neg hp]
      rw [lookup_cons, lookup_cons]
      by_cases hc2 : (c2 == k) = true
      · simp [hc2]
      · simp only [Bool.not_eq_true] at hc2
        simpa [hc2] using ih

/-- mapRowF maps the cells of the mapped column. -/
theorem lookup_mapRowF_same (c : String) (f : Cell → Cell) (r : Row) :
    (mapRowF c f r).lookup c = (r.lookup c).map f := by
  induction r with
  | nil => rfl
  | cons p r ih =>
    obtain ⟨k, v⟩ := p
    simp only [mapRowF, List.map_cons] at ih ⊢
    by_cases hp : k = c
    · subst hp
      simp only [if_pos rfl]
      rw [lookup_cons, lookup_cons]
      simp [ih]
    · have hne : (c == k) = false := beq_eq_false_iff_ne.mpr (fun hh => hp hh.symm)
      simp only [if_neg hp]
      rw [lookup_cons, lookup_cons, hne]
      simpa using ih

/-- getCell after a whole-row cell map, for NaN-fixing cell maps. -/
theorem getCell_map_snd (g : Cell → Cell) (hg : g Cell.nan = Cell.nan) (r : Row) (c : String) :
    getCell (r.map (fun p => (p.1, g p.2))) c = g (getCell r c) := by
  induction r with
  | nil => simp [getCell, List.lookup, hg]
  | cons p r ih =>
    obtain ⟨k, v⟩ := p
    simp only [List.map_cons, getCell] at ih ⊢
    rw [lookup_cons, lookup_cons]
    by_cases hc : (c == k) = true
    · simp [hc]
    · simp only [Bool.not_eq_true] at hc
      simpa [hc] using ih

/-- getCell after mapRowF on another column. -/
theorem getCell_mapRowF_other {c c2 : String} (h : c2 ≠ c) (f : Cell → Cell) (r : Row) :
    getCell (mapRowF c f r) c2 = getCell r c2 := by
  simp [getCell, lookup_mapRowF_other h]

/-- getCell after mapRowF on the mapped column, for NaN-fixing maps. -/
theorem getCell_mapRowF_same {c : String} (f : Cell → Cell) (hf : f Cell.nan = Cell.nan)
    (r : Row) : getCell (mapRowF c f r) c = f (getCell r c) := by
  simp only [getCell, lookup_mapRowF_same]
  cases r.lookup c <;> simp [hf]

/-!  ## Claims -/

/-- C1: build_model_by_name returns the corresponding fresh classifier
configuration for each of the six supported names (exact,
case-sensitive), and for every other string raises a ValueError whose
message contains the offending name; the factory performs no training
work (it only constructs the configuration). -/
theorem C1_model_factory (name : String) :
    (name = "LogisticRegression" → build_model_by_name name = .ok build_logistic_regression) ∧
    (name = "KNN" → build_model_by_name name = .ok build_knn) ∧
    (name = "RandomForest" → build_model_by_name name = .ok build_random_forest) ∧
    (name = "GradientBoosting" → build_model_by_name name = .ok build_gradient_boosting) ∧
    (name = "ExtraTrees" → build_model_by_name name = .ok build_extra_trees) ∧
    (name = "MLPClassifier" → build_model_by_name name = .ok build_mlp_sklearn) ∧
    (name ∉ ["LogisticRegression", "KNN", "RandomForest", "GradientBoosting",
        "ExtraTrees", "MLPClassifier"] →
      ∃ msg front back, build_model_by_name name = .error (.valueError msg) ∧
        msg = front ++ name ++ back) := by
  refine ⟨fun h => by subst h; rfl, fun h => by subst h; rfl, fun h => by subst h; rfl,
    fun h => by subst h; rfl, fun h => by subst h; rfl, fun h => by subst h; rfl, fun h => ?_⟩
  simp only [List.mem_cons, List.not_mem_nil, or_false, not_or] at h
  obtain ⟨h1, h2, h3, h4, h5, h6⟩ := h
  refine ⟨"Неизвестная модель: " ++ name, "Неизвестная модель: ", "", ?_, by simp⟩
  simp [build_model_by_name, h1, h2, h3, h4, h5, h6]

/-- C1 witness: a supported and an unsupported name, concretely. -/
theorem C1_model_factory_witness :
    build_model_by_name "RandomForest" = .ok build_random_forest ∧
    (∃ msg front back, build_model_by_name "UnknownModel" = .error (.valueError msg) ∧
      msg = front ++ "UnknownModel" ++ back) :=
  ⟨(C1_model_factory "RandomForest").2.2.1 rfl,
   (C1_model_factory "UnknownModel").2.2.2.2.2.2 (by decide)⟩

/-- A concrete trivial pipeline used by witnesses. -/
def mdlZero : Model := ⟨fun x => x.map (fun _ => 0), none⟩

/-- C3: load_model raises a FileNotFoundError whose message names the
path exactly when no artifact exists at the path — an error class
distinct from every other failure of the module — and otherwise returns
the stored pipeline itself, hence one with identical predictions; in
particular loading right after saving returns the saved pipeline. -/
theorem C3_load_model (fs : FS) (path : String) :
    (fs.lookup path = none →
      ∃ msg front back, load_model fs path = .error (.fileNotFoundError msg) ∧
        msg = front ++ path ++ back) ∧
    (∀ m : Model, fs.lookup path = some m →
      load_model fs path = .ok m ∧
      ∀ x, (load_model fs path).map (fun mm => mm.predict x) = .ok (m.predict x)) ∧
    (∀ m : Model, load_model (joblib_dump fs path m) path = .ok m) := by
  refine ⟨fun h => ?_, fun m h => ?_, fun m => ?_⟩
  · exact ⟨"Файл модели " ++ path ++ " не найден.", "Файл модели ", " не найден.",
      by simp [load_model, h], by simp⟩
  · constructor
    · simp [load_model, h]
    · intro x; simp [load_model, h, Except.map]
  · simp [load_model, joblib_dump, List.lookup]

/-- C3 witness: a missing path errors with the path in the message; a
save/load round trip returns the saved pipeline. -/
theorem C3_load_model_witness :
    (∃ msg front back,
      load_model [] "models/missing.bin" = .error (.fileNotFoundError msg) ∧
        msg = front ++ "models/missing.bin" ++ back) ∧
    load_model (joblib_dump [] "models/m.pkl" mdlZero) "models/m.pkl" = .ok mdlZero :=
  ⟨(C3_load_model [] "models/missing.bin").1 rfl,
   (C3_load_model [] "models/m.pkl").2.2 mdlZero⟩

/-- A map preserves list emptiness. -/
theorem isEmpty_map {β γ : Type} (g : β → γ) (l : List β) :
    (l.map g).isEmpty = l.isEmpty := by
  cases l <;> rfl

/-- C2 counterexample: calling the Metrics Engine without probability
scores yields a bundle with no roc_auc entry at all — the mapping does
not contain all five metric names in that case. -/
theorem C2_cex :
    (evaluate_binary_classifier [0, 1] [0, 1] none).lookup "roc_auc" = none := by
  decide

/-- C2 amended: the bundle always maps accuracy, precision, recall and
f1 to floats; it contains a roc_auc entry exactly when probability
scores are supplied, and that entry is None (not a raised failure)
precisely when it is undefined because y_true holds only one class. -/
theorem C2_metrics_bundle (y_true y_pred : List Int) (y_proba : Option (List Rat)) :
    ((evaluate_binary_classifier y_true y_pred y_proba).lookup "accuracy"
      = some (some (accuracy_score y_true y_pred))) ∧
    ((evaluate_binary_classifier y_true y_pred y_proba).lookup "precision"
      = some (some (precision_score y_true y_pred))) ∧
    ((evaluate_binary_classifier y_true y_pred y_proba).lookup "recall"
      = some (some (recall_score y_true y_pred))) ∧
    ((evaluate_binary_classifier y_true y_pred y_proba).lookup "f1"
      = some (some (f1_score y_true y_pred))) ∧
    (y_proba = none →
      (evaluate_binary_classifier y_true y_pred y_proba).lookup "roc_auc" = none) ∧
    (∀ p, y_proba = some p →
      (evaluate_binary_classifier y_true y_pred y_proba).lookup "roc_auc"
        = some (roc_auc_score y_true p) ∧
      (roc_auc_score y_true p = none ↔
        ((y_true.zip p).filter (fun a => a.1 == 1)).isEmpty = true ∨
        ((y_true.zip p).filter (fun a => a.1 != 1)).isEmpty = true)) := by
  cases y_proba with
  | none =>
    refine ⟨?_, ?_, ?_, ?_, ?_, ?_⟩
    · simp [evaluate_binary_classifier, List.lookup]
    · simp [evaluate_binary_classifier, List.lookup]
    · simp [evaluate_binary_classifier, List.lookup]
    · simp [evaluate_binary_classifier, List.lookup]
    · intro _; simp [evaluate_binary_classifier, List.lookup]
    · intro p hp; cases hp
  | some p =>
    refine ⟨?_, ?_, ?_, ?_, ?_, ?_⟩
    · simp [evaluate_binary_classifier, List.lookup]
    · simp [evaluate_binary_classifier, List.lookup]
    · simp [evaluate_binary_classifier, List.lookup]
    · simp [evaluate_binary_classifier, List.lookup]
    · intro hp; cases hp
    intro q hq
    cases hq
    refine ⟨by simp [evaluate_binary_classifier, List.lookup], ?_⟩
    simp only [roc_auc_score]
    constructor
    · intro hx
      by_contra hc
      rw [not_or] at hc
      obtain ⟨h1, h2⟩ := hc
      simp only [Bool.not_eq_true] at h1 h2
      rw [if_neg] at hx
      · exact Option.some_ne_none _ hx
      · simp only [Bool.or_eq_true, isEmpty_map, h1, h2]
        simp
    · intro hx
      rw [if_pos]
      simp only [Bool.or_eq_true, isEmpty_map]
      exact hx

/-- C2 witness: on a single-class evaluation set with probabilities
supplied, the bundle maps roc_auc to None and the other four to floats. -/
theorem C2_metrics_bundle_witness :
    (evaluate_binary_classifier [0, 0] [0, 1] (some [1/2, 3/4])).lookup "roc_auc"
      = some none ∧
    (evaluate_binary_classifier [0, 0] [0, 1] (some [1/2, 3/4])).lookup "accuracy"
      = some (some (accuracy_score [0, 0] [0, 1])) := by
  have h := C2_metrics_bundle [0, 0] [0, 1] (some [1/2, 3/4])
  refine ⟨?_, h.1⟩
  have h2 := (h.2.2.2.2.2 [1/2, 3/4] rfl)
  rw [h2.1]
  have : roc_auc_score [0, 0] [1/2, 3/4] = none := by decide
  rw [this]

/-- A pipeline whose probability is exactly 0.5 for every row while its
predict labels every row 0, together with a training stack returning it;
used to separate the two label sources. -/
def constHalfModel : Model :=
  ⟨fun x => x.map (fun _ => 0), some (fun x => x.map (fun _ => (1/2, 1/2)))⟩

/-- A stack whose fitting always returns constHalfModel. -/
def constHalfStack : SklearnStack := ⟨fun _ _ _ => constHalfModel⟩

/-- A one-row frame with feature x and positive target. -/
def dfOneRow : DataFrame :=
  ⟨["x", "needs_upgrade"], [[("x", .int 3), ("needs_upgrade", .int 1)]]⟩

/-- C4 counterexample: Train+Evaluate labels its only test row 0 although
the pipeline scores it exactly 0.5 — the orchestrator takes labels from
pipeline.predict and applies no 0.5 threshold (under the threshold rule
the row would be labelled 1, and the accuracy against the true label 1
would be 1 instead of the 0 the metrics report). -/
theorem C4_cex :
    pipelinePredictions constHalfModel [[("x", Cell.int 3)]] = ([0], some [1/2]) ∧
    (fit_model_and_evaluate constHalfStack dfOneRow dfOneRow
        "needs_upgrade" [] ["x"] "KNN").map (fun pm => pm.2.lookup "accuracy")
      = .ok (some (some 0)) ∧
    ¬ ((0 : Int) = 1 ↔ ((1 : Rat)/2 ≤ 1/2)) := by
  refine ⟨rfl, ?_, ?_⟩
  · have h2 : selectCols dfOneRow ["x"] = .ok [[("x", Cell.int 3)]] := by decide
    have h1 : seriesAstypeInt dfOneRow "needs_upgrade" = .ok [1] := by decide
    have h3 : build_pipeline "KNN" [] ["x"] =
        .ok (⟨[], ["x"]⟩, build_knn) := by decide
    have hacc : accuracy_score [1] [0] = 0 := by
      have hflt : (List.filter (fun (a : Int × Int) => a.1 == a.2)
          ([(1 : Int)].zip [0])).length = 0 := by decide
      simp [accuracy_score, hflt]
    simp only [fit_model_and_evaluate, List.nil_append, h1, h2, h3,
      bind, Except.bind, pure, Except.pure, Except.map]
    simp only [constHalfStack, pipelinePredictions, constHalfModel, List.map]
    simp [evaluate_binary_classifier, List.lookup, hacc]
  · intro hiff
    have h1 : ((1 : Rat)/2 ≤ 1/2) := le_refl _
    have := hiff.mpr h1
    exact absurd this (by norm_num)

/-- Elementwise form of the 0.5 threshold. -/
theorem threshold_elem (p : Rat) :
    ((if 1/2 ≤ p then (1 : Int) else 0) = 1 ↔ 1/2 ≤ p) ∧
    ((if 1/2 ≤ p then (1 : Int) else 0) = 0 ↔ p < 1/2) := by
  by_cases h : 1/2 ≤ p
  · simp [h, not_lt.mpr h]
  · simp [h, not_le.mp h]

/-- The mapped threshold labels satisfy the elementwise relation. -/
theorem forall2_map_threshold (ps : List Rat) :
    List.Forall₂ (fun (l : Int) (p : Rat) => (l = 1 ↔ 1/2 ≤ p) ∧ (l = 0 ↔ p < 1/2))
      (ps.map (fun p => if 1/2 ≤ p then (1 : Int) else 0)) ps := by
  induction ps with
  | nil => constructor
  | cons p ps ih => exact List.Forall₂.cons (threshold_elem p) ih

/-- C4 amended: predict_needs_upgrade labels a row 1 exactly when its
score — the predicted probability, or the predicted label cast to float
when the model exposes no probabilities — is at least 0.5, so a score of
exactly 0.5 maps to label 1; the Train+Evaluate orchestrator, by
contrast, takes its labels verbatim from pipeline.predict and applies no
probability threshold. -/
theorem C4_threshold (model : Model) (df : DataFrame) (cols : List String)
    (labels : List Int) (proba : List Rat)
    (h : predict_needs_upgrade model df cols = .ok (labels, proba)) :
    List.Forall₂ (fun (l : Int) (p : Rat) => (l = 1 ↔ 1/2 ≤ p) ∧ (l = 0 ↔ p < 1/2))
      labels proba := by
  have hmap : labels = proba.map (fun p => if 1/2 ≤ p then (1 : Int) else 0) := by
    revert h
    simp only [predict_needs_upgrade]
    cases hx : selectCols df cols with
    | error e => intro h; simp [bind, Except.bind] at h
    | ok x =>
      intro h
      simp only [bind, Except.bind, pure, Except.pure, Except.ok.injEq,
        Prod.mk.injEq] at h
      obtain ⟨h1, h2⟩ := h
      rw [← h1, ← h2]
  rw [hmap]
  exact forall2_map_threshold proba

/-- C4 witness: a score of exactly 0.5 is labelled 1 by
predict_needs_upgrade. -/
theorem C4_threshold_witness :
    predict_needs_upgrade constHalfModel dfOneRow ["x"] = .ok ([1], [1/2]) ∧
    List.Forall₂ (fun (l : Int) (p : Rat) => (l = 1 ↔ 1/2 ≤ p) ∧ (l = 0 ↔ p < 1/2))
      [1] [1/2] := by
  have hrun : predict_needs_upgrade constHalfModel dfOneRow ["x"] = .ok ([1], [1/2]) := by
    simp only [predict_needs_upgrade, constHalfModel, dfOneRow, selectCols,
      bind, Except.bind, pure, Except.pure]
    norm_num
  exact ⟨hrun, C4_threshold constHalfModel dfOneRow ["x"] [1] [1/2] hrun⟩

/-- The label cast of a successful astype(int) run is the direct cast of
every row, in order. -/
theorem seriesAstypeInt_ok_forall2 {df : DataFrame} {t : String} {y : List Int}
    (h : seriesAstypeInt df t = .ok y) :
    List.Forall₂ (fun (r : Row) v => pyIntCast (getCell r t) = .ok v) df.rows y := by
  by_cases hc : df.cols.contains t
  · rw [seriesAstypeInt, if_pos hc] at h
    exact mapExc_ok_forall2 h
  · rw [seriesAstypeInt, if_neg hc] at h
    cases h

/-- A frame whose target column holds the non-binary value 2. -/
def dfNonBinary : DataFrame :=
  ⟨["x", "needs_upgrade"],
   [[("x", .int 1), ("needs_upgrade", .int 0)],
    [("x", .int 2), ("needs_upgrade", .int 2)],
    [("x", .int 3), ("needs_upgrade", .int 1)]]⟩

/-- C5 counterexample: Train+Evaluate on a frame whose target holds the
value 2 succeeds without excluding any row — the cast labels it fits on
and computes metrics against contain 2, which is neither 0 nor 1. -/
theorem C5_cex :
    seriesAstypeInt dfNonBinary "needs_upgrade" = .ok [0, 2, 1] ∧
    ¬ (∀ v ∈ [(0 : Int), 2, 1], v = 0 ∨ v = 1) ∧
    (fit_model_and_evaluate constHalfStack dfNonBinary dfNonBinary
        "needs_upgrade" [] ["x"] "KNN").toOption.isSome = true := by
  refine ⟨by decide, by decide, rfl⟩

/-- C5 amended: the two orchestrators coerce the target with a direct
astype(int) and exclude no rows: the labels used for fitting and for the
metrics are exactly the casts of every row of the respective partition
(so they can hold values outside 0/1, and a missing target raises
instead of dropping the row); the coerce-and-filter-to-01 rule lives
only in prepare_features_target, which the orchestrators do not call. -/
theorem C5_no_filtering (stack : SklearnStack) (df_train df_test : DataFrame)
    (t : String) (cats nums : List String) (name : String)
    (xtr xte : List Row) (ytr yte : List Int) (pipe : PreSpec × Classifier)
    (h1 : selectCols df_train (cats ++ nums) = .ok xtr)
    (h2 : seriesAstypeInt df_train t = .ok ytr)
    (h3 : selectCols df_test (cats ++ nums) = .ok xte)
    (h4 : seriesAstypeInt df_test t = .ok yte)
    (h5 : build_pipeline name cats nums = .ok pipe) :
    ytr.length = df_train.rows.length ∧ yte.length = df_test.rows.length ∧
    List.Forall₂ (fun (r : Row) v => pyIntCast (getCell r t) = .ok v) df_train.rows ytr ∧
    List.Forall₂ (fun (r : Row) v => pyIntCast (getCell r t) = .ok v) df_test.rows yte ∧
    fit_model_and_evaluate stack df_train df_test t cats nums name =
      .ok (stack.fitPipeline pipe xtr ytr,
        evaluate_binary_classifier yte
          (pipelinePredictions (stack.fitPipeline pipe xtr ytr) xte).1
          (pipelinePredictions (stack.fitPipeline pipe xtr ytr) xte).2) := by
  have f2tr := seriesAstypeInt_ok_forall2 h2
  have f2te := seriesAstypeInt_ok_forall2 h4
  refine ⟨(List.Forall₂.length_eq f2tr).symm, (List.Forall₂.length_eq f2te).symm,
    f2tr, f2te, ?_⟩
  simp only [fit_model_and_evaluate, h1, h2, h3, h4, h5,
    bind, Except.bind, pure, Except.pure]

/-- C5 witness: the amended description holds on the concrete non-binary
frame — the fitted labels are the direct casts of all three rows. -/
theorem C5_no_filtering_witness :
    List.Forall₂ (fun (r : Row) v => pyIntCast (getCell r "needs_upgrade") = .ok v)
      dfNonBinary.rows [0, 2, 1] :=
  (C5_no_filtering constHalfStack dfNonBinary dfNonBinary "needs_upgrade" [] ["x"] "KNN"
    [[("x", Cell.int 1)], [("x", Cell.int 2)], [("x", Cell.int 3)]]
    [[("x", Cell.int 1)], [("x", Cell.int 2)], [("x", Cell.int 3)]]
    [0, 2, 1] [0, 2, 1] (⟨[], ["x"]⟩, build_knn)
    (by decide) (by decide) (by decide) (by decide) (by decide)).2.2.1

/-- C6 counterexample: saving to the bare filename model.pkl — whose
parent directory is the current working directory, which exists and
needs no creation — fails with FileNotFoundError, because
os.makedirs(os.path.dirname(path)) is invoked on the empty string. -/
theorem C6_cex :
    dirname "model.pkl" = "" ∧
    fit_on_full_and_save constHalfStack [] dfOneRow "needs_upgrade" [] ["x"]
        "KNN" "model.pkl"
      = .error (.fileNotFoundError "No such file or directory: ''") := by
  exact ⟨rfl, rfl⟩

/-- C6 amended: for every artifact path with a directory component,
Train-Full+Persist fits the assembled pipeline on the whole frame,
creates the missing parent directories, writes the fitted pipeline at
the path — overwriting any previous artifact — and returns it with the
in-sample metrics bundle; a path without a directory component instead
raises FileNotFoundError out of os.makedirs(""). -/
theorem C6_persist (stack : SklearnStack) (fs : FS) (df : DataFrame) (t : String)
    (cats nums : List String) (name path : String) (x : List Row) (y : List Int)
    (pipe : PreSpec × Classifier)
    (h1 : selectCols df (cats ++ nums) = .ok x)
    (h2 : seriesAstypeInt df t = .ok y)
    (h3 : build_pipeline name cats nums = .ok pipe)
    (h4 : dirname path ≠ "") :
    fit_on_full_and_save stack fs df t cats nums name path =
      .ok ((stack.fitPipeline pipe x y,
        evaluate_binary_classifier y
          (pipelinePredictions (stack.fitPipeline pipe x y) x).1
          (pipelinePredictions (stack.fitPipeline pipe x y) x).2),
        joblib_dump fs path (stack.fitPipeline pipe x y)) ∧
    (joblib_dump fs path (stack.fitPipeline pipe x y)).lookup path
      = some (stack.fitPipeline pipe x y) := by
  constructor
  · simp only [fit_on_full_and_save, h1, h2, h3, bind, Except.bind, pure,
      Except.pure, makedirs, if_neg h4]
  · simp [joblib_dump, List.lookup]

/-- A concrete fitted pipeline produced in the C6 witness scenario. -/
def fittedW : Model :=
  constHalfStack.fitPipeline (⟨[], ["x"]⟩, build_knn) [[("x", Cell.int 3)]] [1]

/-- C6 witness: saving to models/m.pkl succeeds and the artifact at that
path is the fitted pipeline. -/
theorem C6_persist_witness :
    fit_on_full_and_save constHalfStack [] dfOneRow "needs_upgrade" [] ["x"]
        "KNN" "models/m.pkl"
      = .ok ((fittedW,
        evaluate_binary_classifier [1]
          (pipelinePredictions fittedW [[("x", Cell.int 3)]]).1
          (pipelinePredictions fittedW [[("x", Cell.int 3)]]).2),
        joblib_dump [] "models/m.pkl" fittedW) ∧
    (joblib_dump [] "models/m.pkl" fittedW).lookup "models/m.pkl" = some fittedW :=
  C6_persist constHalfStack [] dfOneRow "needs_upgrade" [] ["x"] "KNN" "models/m.pkl"
    [[("x", Cell.int 3)]] [1] (⟨[], ["x"]⟩, build_knn)
    (by decide) (by decide) (by decide) (by decide)

/-- A quotient of a count by a larger count lies in the unit interval. -/
theorem ratDivBounds {a b : Nat} (h : a ≤ b) :
    0 ≤ (a : Rat) / (b : Rat) ∧ (a : Rat) / (b : Rat) ≤ 1 := by
  constructor
  · positivity
  · rcases Nat.eq_zero_or_pos b with hb | hb
    · subst hb
      simp [Nat.le_zero.mp h]
    · rw [div_le_one (by exact_mod_cast hb)]
      exact_mod_cast h

/-- C8: on binary label/prediction arrays, accuracy, precision, recall
and f1 all lie in [0,1]; precision, recall and f1 are zero — not a
division-by-zero failure — when their denominator is zero; and f1 is
zero whenever precision and recall are both zero. -/
theorem C8_metric_bounds (y_true y_pred : List Int)
    (hlen : y_true.length = y_pred.length) (hne : y_true ≠ [])
    (hbt : ∀ v ∈ y_true, v = 0 ∨ v = 1) (hbp : ∀ v ∈ y_pred, v = 0 ∨ v = 1) :
    (0 ≤ accuracy_score y_true y_pred ∧ accuracy_score y_true y_pred ≤ 1) ∧
    (0 ≤ precision_score y_true y_pred ∧ precision_score y_true y_pred ≤ 1) ∧
    (0 ≤ recall_score y_true y_pred ∧ recall_score y_true y_pred ≤ 1) ∧
    (0 ≤ f1_score y_true y_pred ∧ f1_score y_true y_pred ≤ 1) ∧
    (truePos y_true y_pred + falsePos y_true y_pred = 0 →
      precision_score y_true y_pred = 0) ∧
    (truePos y_true y_pred + falseNeg y_true y_pred = 0 →
      recall_score y_true y_pred = 0) ∧
    (precision_score y_true y_pred = 0 ∧ recall_score y_true y_pred = 0 →
      f1_score y_true y_pred = 0) := by
  have hm : (List.filter (fun a => a.1 == a.2) (y_true.zip y_pred)).length
      ≤ y_true.length :=
    le_trans (List.length_filter_le _ _)
      (by rw [List.length_zip, hlen, Nat.min_self])
  refine ⟨ratDivBounds hm, ?_, ?_, ?_, ?_, ?_, ?_⟩
  · simp only [precision_score]
    split
    · norm_num
    · exact ratDivBounds (Nat.le_add_right _ _)
  · simp only [recall_score]
    split
    · norm_num
    · exact ratDivBounds (Nat.le_add_right _ _)
  · simp only [f1_score]
    split
    · norm_num
    · exact ratDivBounds (by omega)
  · intro h; simp [precision_score, h]
  · intro h; simp [recall_score, h]
  · rintro ⟨hP, hR⟩
    have htp : truePos y_true y_pred = 0 := by
      by_cases h0 : truePos y_true y_pred + falsePos y_true y_pred = 0
      · omega
      · simp only [precision_score, if_neg h0] at hP
        rcases div_eq_zero_iff.mp hP with h | h
        · exact_mod_cast h
        · exact absurd (by exact_mod_cast h) h0
    simp only [f1_score, htp, Nat.mul_zero, Nat.zero_add]
    split
    · rfl
    · simp

/-- C8 witness: the bounds at a concrete binary pair with a zero
precision denominator. -/
theorem C8_metric_bounds_witness :
    (0 ≤ accuracy_score [0, 1] [0, 0] ∧ accuracy_score [0, 1] [0, 0] ≤ 1) ∧
    precision_score [0, 1] [0, 0] = 0 := by
  have h := C8_metric_bounds [0, 1] [0, 0] (by decide) (by decide)
    (by decide) (by decide)
  exact ⟨h.1, h.2.2.2.2.1 (by decide)⟩

/-- C7: on a nonempty dataset whose disjoint categorical/numeric column
lists are fully present (and hold no infinities, which sklearn's input
validation rejects), the fitted preprocessing transformer maps a
categorical value unseen at fit time to the all-zero indicator block
without raising, and fit_transform yields a numeric matrix in which no
entry is missing. -/
theorem C7_preprocessing (sqrtFn : Rat → Rat) (cats nums : List String) (x : List Row)
    (hx : x ≠ [])
    (hdisj : ∀ c ∈ cats, c ∉ nums)
    (hpres : ∀ r ∈ x, ∀ c ∈ cats ++ nums, (r.lookup c).isSome = true)
    (hnoinf : ∀ r ∈ x, ∀ p ∈ r, p.2 ≠ Cell.inf ∧ p.2 ≠ Cell.ninf) :
    (∀ c fc (v : Cell),
      (fitPre sqrtFn (build_preprocessing_pipeline cats nums) x).catFits.lookup c
        = some (some fc) →
      v ≠ Cell.nan → v ∉ fc.categories →
      transformCat fc v = fc.categories.map (fun _ => some 0)) ∧
    (∀ row ∈ fit_transform sqrtFn (build_preprocessing_pipeline cats nums) x,
      ∀ cell ∈ row, cell.isSome = true) := by
  constructor
  · intro c fc v hlk hv hvmem
    simp only [transformCat]
    have hbeq : (v == Cell.nan) = false := by
      simp only [beq_eq_false_iff_ne]; exact hv
    rw [hbeq]
    simp only [Bool.false_eq_true, if_false]
    refine List.map_congr_left ?_
    intro a ha
    have hne : a ≠ v := fun he => hvmem (he ▸ ha)
    have : (a == v) = false := by
      simp only [beq_eq_false_iff_ne]; exact hne
    rw [this]
    simp
  · intro row hrow cell hcell
    simp only [fit_transform, List.mem_map] at hrow
    obtain ⟨r, hr, rfl⟩ := hrow
    simp only [transformRow, List.mem_append] at hcell
    rcases hcell with hcell | hcell
    · rw [List.mem_flatten] at hcell
      obtain ⟨blk, hblk, hcb⟩ := hcell
      rw [List.mem_map] at hblk
      obtain ⟨cf, hcf, rfl⟩ := hblk
      cases hcf2 : cf.2 with
      | none => rw [hcf2] at hcb; cases hcb
      | some fc =>
        rw [hcf2] at hcb
        simp only [transformCat, List.mem_map] at hcb
        obtain ⟨cat, hcat, rfl⟩ := hcb
        split <;> split <;> rfl
    · rw [List.mem_flatten] at hcell
      obtain ⟨blk, hblk, hcb⟩ := hcell
      rw [List.mem_map] at hblk
      obtain ⟨nf, hnf, rfl⟩ := hblk
      cases hnf2 : nf.2 with
      | none => rw [hnf2] at hcb; cases hcb
      | some fn =>
        rw [hnf2] at hcb
        simp only [List.mem_singleton] at hcb
        subst hcb
        rfl

/-- A two-row fit frame for the C7 witness. -/
def xW : List Row :=
  [[("dep", .str "hr"), ("age", .int 2)], [("dep", .str "it"), ("age", .nan)]]

/-- The fitted categorical state of column dep on xW. -/
def fcW : FittedCat := ⟨.str "hr", [.str "hr", .str "it"]⟩

/-- C7 witness: the value Unseen, absent from the fitted categories of
column dep, is encoded as the all-zero indicator block. -/
theorem C7_preprocessing_witness :
    transformCat fcW (Cell.str "Unseen") = fcW.categories.map (fun _ => some 0) :=
  (C7_preprocessing (fun q => q) ["dep"] ["age"] xW (by decide) (by decide)
    (by decide) (by decide)).1 "dep" fcW (Cell.str "Unseen")
    (by decide) (by decide) (by decide)

/-- The row-survival test of prepare_features_target, expressed on the
raw input target cell: after numeric coercion and infinity replacement
the value must be non-missing and lie in {0, 1}. -/
def keepTarget (v : Cell) : Bool :=
  isinBinary (replaceInfCell (pdToNumericCell v)) &&
  (replaceInfCell (pdToNumericCell v) != Cell.nan)

/-- C10: prepare_features_target replaces the infinities of EVERY column
by NaN, not only the target column: the returned X consists of the
surviving input rows restricted to the feature columns with each
infinite entry replaced by NaN and every other entry unchanged (the
function operates on a copy, so in this pure embedding the input frame
itself is untouched by construction). -/
theorem C10_replace_inf (df : DataFrame) (t : String) (cats nums : List String)
    (x : List Row) (y : List Int) (meta : FeatureMeta)
    (ht : t ∉ cats ++ nums)
    (h : prepare_features_target df t cats nums = .ok (x, y, meta)) :
    x = (df.rows.filter (fun r => keepTarget (getCell r t))).map
        (fun r => (cats ++ nums).map (fun c => (c, replaceInfCell (getCell r c)))) ∧
    (∀ v : Cell, v ≠ Cell.inf → v ≠ Cell.ninf → replaceInfCell v = v) ∧
    replaceInfCell Cell.inf = Cell.nan ∧ replaceInfCell Cell.ninf = Cell.nan := by
  refine ⟨?_, fun v h1 h2 => by cases v <;> simp_all [replaceInfCell], rfl, rfl⟩
  simp only [prepare_features_target] at h
  split at h
  · cases h
  split at h
  · cases h
  simp only [Except.ok.injEq, Prod.mk.injEq] at h
  obtain ⟨hx, hy, hm⟩ := h
  rw [← hx]
  simp only [List.map_map, List.filter_map, List.filter_filter, Function.comp]
  have hFt : ∀ r : Row,
      getCell ((mapRowF t pdToNumericCell r).map (fun p => (p.1, replaceInfCell p.2))) t
        = replaceInfCell (pdToNumericCell (getCell r t)) := by
    intro r
    rw [getCell_map_snd replaceInfCell rfl, getCell_mapRowF_same _ rfl]
  have hFc : ∀ (r : Row) (c : String), c ≠ t →
      getCell ((mapRowF t pdToNumericCell r).map (fun p => (p.1, replaceInfCell p.2))) c
        = replaceInfCell (getCell r c) := by
    intro r c hc
    rw [getCell_map_snd replaceInfCell rfl, getCell_mapRowF_other hc]
  have hpred : ∀ r : Row,
      (isinBinary (getCell ((mapRowF t pdToNumericCell r).map
          (fun p => (p.1, replaceInfCell p.2))) t) &&
        (getCell ((mapRowF t pdToNumericCell r).map
          (fun p => (p.1, replaceInfCell p.2))) t != Cell.nan))
        = keepTarget (getCell r t) := by
    intro r
    rw [hFt]
    rfl
  have hrow : ∀ r : Row,
      (cats ++ nums).map (fun c =>
        (c, getCell (mapRowF t astypeIntCell ((mapRowF t pdToNumericCell r).map
          (fun p => (p.1, replaceInfCell p.2)))) c))
        = (cats ++ nums).map (fun c => (c, replaceInfCell (getCell r c))) := by
    intro r
    refine List.map_congr_left ?_
    intro c hc
    have hct : c ≠ t := fun he => ht (he ▸ hc)
    rw [getCell_mapRowF_other hct, hFc r c hct]
  congr 1
  · funext r
    exact hrow r
  · congr 1
    funext r
    exact hpred r

/-- A frame with an infinite feature entry and a clean binary target. -/
def dfInf : DataFrame :=
  ⟨["x", "t"], [[("x", .inf), ("t", .int 1)], [("x", .int 5), ("t", .int 0)]]⟩

/-- C10 witness: the infinite feature entry of dfInf comes back as NaN
in X while the finite entry is unchanged. -/
theorem C10_replace_inf_witness :
    prepare_features_target dfInf "t" [] ["x"]
      = .ok ([[("x", Cell.nan)], [("x", Cell.int 5)]], [1, 0], ⟨[], ["x"]⟩) ∧
    [[("x", Cell.nan)], [("x", Cell.int 5)]]
      = (dfInf.rows.filter (fun r => keepTarget (getCell r "t"))).map
          (fun r => ([] ++ ["x"]).map (fun c => (c, replaceInfCell (getCell r c)))) :=
  ⟨by decide,
   (C10_replace_inf dfInf "t" [] ["x"] [[("x", Cell.nan)], [("x", Cell.int 5)]]
      [1, 0] ⟨[], ["x"]⟩ (by decide) (by decide)).1⟩

/-- A single cell transform of transformColCell keeps the key, and keeps
the whole pair on other columns. -/
theorem transformColCell_fst {c : String} {f : Cell → Except PyErr Cell}
    {p b : String × Cell}
    (h : (if p.1 = c then do let v ← f p.2; pure (p.1, v)
          else pure p : Except PyErr (String × Cell)) = .ok b) :
    b.1 = p.1 ∧ (p.1 ≠ c → b = p) := by
  by_cases hp : p.1 = c
  · rw [if_pos hp] at h
    cases hf : f p.2 with
    | error e => rw [hf] at h; simp [bind, Except.bind] at h
    | ok w =>
      rw [hf] at h
      simp only [bind, Except.bind, pure, Except.pure, Except.ok.injEq] at h
      exact ⟨by rw [← h], fun hna => absurd hp hna⟩
  · rw [if_neg hp] at h
    simp only [pure, Except.pure, Except.ok.injEq] at h
    exact ⟨by rw [← h], fun _ => h.symm⟩

/-- transformColCell keeps the lookup of every other column. -/
theorem transformColCell_lookup_other {c c2 : String} (hne : c2 ≠ c)
    {f : Cell → Except PyErr Cell} {r r2 : Row}
    (h : transformColCell c f r = .ok r2) : r2.lookup c2 = r.lookup c2 := by
  have h2 := mapExc_ok_forall2 (show mapExc _ r = .ok r2 from h)
  clear h
  induction h2 with
  | nil => rfl
  | cons h1 htail ih =>
    rename_i a b l1 l2
    obtain ⟨hb1, hbeq⟩ := transformColCell_fst h1
    obtain ⟨ka, va⟩ := a
    obtain ⟨kb, vb⟩ := b
    simp only at hb1
    subst hb1
    rw [lookup_cons, lookup_cons]
    by_cases hc2 : (c2 == kb) = true
    · have hc2e : c2 = kb := by simpa using hc2
      have hkc : kb ≠ c := fun he => hne (hc2e.trans he)
      have hvv : vb = va := by
        have hx := hbeq hkc
        simpa using hx
      simp [hc2, hvv]
    · simp only [Bool.not_eq_true] at hc2
      simpa [hc2] using ih

/-- A successful mapColE keeps the columns and the lookups of every
other column, row by row. -/
theorem mapColE_ok_facts {df : DataFrame} {c : String} {f : Cell → Except PyErr Cell}
    {df2 : DataFrame} (h : mapColE df c f = .ok df2) :
    df2.cols = df.cols ∧
    List.Forall₂ (fun r r2 => ∀ c2, c2 ≠ c → r2.lookup c2 = r.lookup c2)
      df.rows df2.rows := by
  cases hm : mapExc (transformColCell c f) df.rows with
  | error e =>
    simp only [mapColE, hm, bind, Except.bind] at h
    exact Except.noConfusion h
  | ok rows2 =>
    simp only [mapColE, hm, bind, Except.bind, pure, Except.pure,
      Except.ok.injEq] at h
    refine ⟨by rw [← h], ?_⟩
    have hf := mapExc_ok_forall2 (f := transformColCell c f) hm
    have himp : List.Forall₂
        (fun r r2 => ∀ c2, c2 ≠ c → r2.lookup c2 = r.lookup c2) df.rows rows2 :=
      List.Forall₂.imp
        (fun a b hab => fun c2 hc2 => transformColCell_lookup_other hc2 hab) hf
    rw [← h]
    exact himp

/-- Lookup-presence travels along lookup-preserving Forall₂. -/
theorem pres_of_forall2 {l l2 : List Row} {c : String}
    (h : List.Forall₂ (fun r r2 => r2.lookup c = r.lookup c) l l2)
    (hp : ∀ r ∈ l, (r.lookup c).isSome = true) :
    ∀ r2 ∈ l2, (r2.lookup c).isSome = true := by
  induction h with
  | nil => intro r2 hr2; cases hr2
  | cons h1 htail ih =>
    intro r2 hr2
    rcases List.mem_cons.mp hr2 with hr2 | hr2
    · subst hr2
      rw [h1]
      exact hp _ (List.mem_cons_self _ _)
    · exact ih (fun r hr => hp r (List.mem_cons_of_mem _ hr)) r2 hr2

/-- mapCol on the mapped column maps the column cells, when the column
is present in every row. -/
theorem colOf_mapCol_same {rows : List Row} {c : String} (f : Cell → Cell)
    (hpres : ∀ r ∈ rows, (r.lookup c).isSome = true) :
    colOf (rows.map (mapRowF c f)) c = (colOf rows c).map f := by
  induction rows with
  | nil => rfl
  | cons r rows ih =>
    simp only [colOf, List.map_cons] at ih ⊢
    have hh : (r.lookup c).isSome = true := hpres r (List.mem_cons_self _ _)
    obtain ⟨v, hv⟩ := Option.isSome_iff_exists.mp hh
    have hhead : getCell (mapRowF c f r) c = f (getCell r c) := by
      simp [getCell, lookup_mapRowF_same, hv]
    rw [hhead, ih (fun r2 hr2 => hpres r2 (List.mem_cons_of_mem _ hr2))]

/-- mapCol keeps every other column. -/
theorem colOf_mapCol_other {rows : List Row} {c c2 : String} (hne : c2 ≠ c)
    (f : Cell → Cell) :
    colOf (rows.map (mapRowF c f)) c2 = colOf rows c2 := by
  simp only [colOf, List.map_map]
  refine List.map_congr_left ?_
  intro r _
  simp only [Function.comp]
  simp [getCell, lookup_mapRowF_other hne]

/-- The rows clean_dataset keeps: those with a present target label when
the frame has a needs_upgrade column, all rows otherwise. -/
def cleanSurvivors (df : DataFrame) : List Row :=
  if df.cols.contains "needs_upgrade" then
    df.rows.filter (fun r => getCell r "needs_upgrade" != Cell.nan)
  else df.rows

/-- Surviving rows are input rows. -/
theorem cleanSurvivors_subset {df : DataFrame} : ∀ r ∈ cleanSurvivors df, r ∈ df.rows := by
  intro r hr
  rw [cleanSurvivors] at hr
  split at hr
  · exact (List.mem_filter.mp hr).1
  · exact hr

/-- The target block keeps the columns and, on the surviving rows, the
lookups of every non-target column. -/
theorem cleanTarget_facts {df df1 : DataFrame} (h : cleanTarget df = .ok df1) :
    df1.cols = df.cols ∧
    List.Forall₂ (fun r r2 => ∀ c2, c2 ≠ "needs_upgrade" → r2.lookup c2 = r.lookup c2)
      (cleanSurvivors df) df1.rows := by
  rw [cleanTarget] at h
  rw [cleanSurvivors]
  by_cases hc : df.cols.contains "needs_upgrade" = true
  · rw [if_pos hc] at h
    rw [if_pos hc]
    exact mapColE_ok_facts h
  · rw [if_neg hc] at h
    rw [if_neg hc]
    simp only [pure, Except.pure, Except.ok.injEq] at h
    subst h
    exact ⟨rfl, List.forall₂_same.mpr (fun r _ c2 _ => rfl)⟩

/-- The device-age block keeps the columns and the lookups of every
other column. -/
theorem cleanDeviceAge_facts {df df1 : DataFrame} (h : cleanDeviceAge df = .ok df1) :
    df1.cols = df.cols ∧
    List.Forall₂ (fun r r2 => ∀ c2, c2 ≠ "device_age_years" → r2.lookup c2 = r.lookup c2)
      df.rows df1.rows := by
  rw [cleanDeviceAge] at h
  by_cases hc : df.cols.contains "device_age_years" = true
  · rw [if_pos hc] at h
    cases hmed : pdMedianCell (colOf df.rows "device_age_years") with
    | error e =>
      simp only [hmed, bind, Except.bind] at h
      exact Except.noConfusion h
    | ok med =>
      simp only [hmed, bind, Except.bind] at h
      exact mapColE_ok_facts h
  · rw [if_neg hc] at h
    simp only [pure, Except.pure, Except.ok.injEq] at h
    subst h
    exact ⟨rfl, List.forall₂_same.mpr (fun r _ c2 _ => rfl)⟩

/-- The description block keeps the tickets column. -/
theorem colOf_cleanDescription_tickets (d : DataFrame) :
    colOf (cleanDescription d).rows "tickets_last_6_months"
      = colOf d.rows "tickets_last_6_months" := by
  rw [cleanDescription]
  split
  · exact colOf_mapCol_other (by decide) _
  · rfl

/-- One categorical step keeps the tickets column. -/
theorem colOf_catStep_tickets (d : DataFrame) (col : String)
    (hne : "tickets_last_6_months" ≠ col) :
    colOf (if d.cols.contains col then mapCol d col cleanCatCell else d).rows
        "tickets_last_6_months" = colOf d.rows "tickets_last_6_months" := by
  split
  · exact colOf_mapCol_other hne _
  · rfl

/-- The categorical block keeps the tickets column. -/
theorem colOf_cleanCategoricals_tickets (d : DataFrame) :
    colOf (cleanCategoricals d).rows "tickets_last_6_months"
      = colOf d.rows "tickets_last_6_months" := by
  simp only [cleanCategoricals, cleanCategoricalCols, List.foldl_cons, List.foldl_nil]
  rw [colOf_catStep_tickets _ "location" (by decide),
    colOf_catStep_tickets _ "os" (by decide),
    colOf_catStep_tickets _ "priority" (by decide),
    colOf_catStep_tickets _ "device_type" (by decide),
    colOf_catStep_tickets _ "user_department" (by decide)]

/-- C9: clean_dataset replaces every tickets_last_6_months value by the
character length of its whitespace-stripped string rendering — a ticket
count 12 becomes 2 and a missing value becomes the length of the string
nan, that is 3 — rather than coercing it numerically; the transformed
column is aligned with the rows surviving the target-label filter. -/
theorem C9_tickets (df df2 : DataFrame)
    (hcol : df.cols.contains "tickets_last_6_months" = true)
    (hpres : ∀ r ∈ df.rows, (r.lookup "tickets_last_6_months").isSome = true)
    (h : clean_dataset df = .ok df2) :
    colOf df2.rows "tickets_last_6_months" =
      (colOf (cleanSurvivors df) "tickets_last_6_months").map ticketLenCell ∧
    ticketLenCell (Cell.int 12) = Cell.int 2 ∧
    ticketLenCell Cell.nan = Cell.int 3 := by
  refine ⟨?_, by decide, by decide⟩
  rw [clean_dataset] at h
  cases h1 : cleanTarget df with
  | error e =>
    simp only [h1, bind, Except.bind] at h
    exact Except.noConfusion h
  | ok dfa =>
    simp only [h1, bind, Except.bind] at h
    cases h2 : cleanDeviceAge dfa with
    | error e =>
      simp only [h2, bind, Except.bind] at h
      exact Except.noConfusion h
    | ok dfb =>
      simp only [h2, bind, Except.bind, pure, Except.pure, Except.ok.injEq] at h
      subst h
      obtain ⟨hca, hfa⟩ := cleanTarget_facts h1
      obtain ⟨hcb, hfb⟩ := cleanDeviceAge_facts h2
      have hfa2 : List.Forall₂
          (fun r r2 => r2.lookup "tickets_last_6_months" = r.lookup "tickets_last_6_months")
          (cleanSurvivors df) dfa.rows :=
        List.Forall₂.imp (fun a b hab => hab _ (by decide)) hfa
      have hfb2 : List.Forall₂
          (fun r r2 => r2.lookup "tickets_last_6_months" = r.lookup "tickets_last_6_months")
          dfa.rows dfb.rows :=
        List.Forall₂.imp (fun a b hab => hab _ (by decide)) hfb
      have hpsurv : ∀ r ∈ cleanSurvivors df,
          (r.lookup "tickets_last_6_months").isSome = true :=
        fun r hr => hpres r (cleanSurvivors_subset r hr)
      have hpa := pres_of_forall2 hfa2 hpsurv
      have hpb := pres_of_forall2 hfb2 hpa
      have hcontains : dfb.cols.contains "tickets_last_6_months" = true := by
        rw [hcb, hca]; exact hcol
      rw [colOf_cleanCategoricals_tickets, colOf_cleanDescription_tickets]
      rw [cleanTickets, if_pos hcontains]
      have hmc : colOf (mapCol dfb "tickets_last_6_months" ticketLenCell).rows
          "tickets_last_6_months"
          = (colOf dfb.rows "tickets_last_6_months").map ticketLenCell :=
        colOf_mapCol_same ticketLenCell hpb
      rw [hmc, colOf_eq_of_forall2 hfb2, colOf_eq_of_forall2 hfa2]

/-- A tickets-only frame with a numeric count and a missing value. -/
def dfTickets : DataFrame :=
  ⟨["tickets_last_6_months"],
   [[("tickets_last_6_months", .int 12)], [("tickets_last_6_months", .nan)]]⟩

/-- C9 witness: cleaning dfTickets turns the count 12 into 2 and the
missing value into 3. -/
theorem C9_tickets_witness :
    clean_dataset dfTickets
      = .ok ⟨["tickets_last_6_months"],
          [[("tickets_last_6_months", Cell.int 2)], [("tickets_last_6_months", Cell.int 3)]]⟩ ∧
    colOf [[("tickets_last_6_months", Cell.int 2)], [("tickets_last_6_months", Cell.int 3)]]
        "tickets_last_6_months"
      = (colOf (cleanSurvivors dfTickets) "tickets_last_6_months").map ticketLenCell := by
  have hrun : clean_dataset dfTickets
      = .ok ⟨["tickets_last_6_months"],
          [[("tickets_last_6_months", Cell.int 2)], [("tickets_last_6_months", Cell.int 3)]]⟩ := by
    decide
  exact ⟨hrun,
    (C9_tickets dfTickets _ (by decide) (by decide) hrun).1⟩

end ItEquipment
